import Mathlib

/-!
Verification of the speech-emotion-analysis service.

The repository contains three near-identical FastAPI applications:

* `main.py` and `api/index.py` share the "simple" scorer
  `analyze_audio_simple` (identical arithmetic in both files);
* `app.py` has the variant scorer `generate_emotion_analysis` working on a
  [0,1] scale and using the spectral centroid.

The scorers are pure arithmetic over the derived statistics
`rms_var = np.std(rms) / (np.mean(rms) + 1e-8)` and `zcr_mean = np.mean(zcr)`
(plus `np.mean(spectral_centroid)` in the app variant).  We embed this
arithmetic over exact rationals (ℚ).  Python's `round(x, n)` rounds to the
nearest multiple of 10^-n with ties going to the even choice; `roundHalfEven`
below embeds that idealised decimal rounding.

The HTTP request handlers are embedded at the level the claims need: the
validation stage of each `POST /analyze` handler (content-type and size
checks), and the temporary-file lifecycle of each handler as a function of
which processing step raises.  FastAPI returns a bare `dict` value with its
default HTTP status 200; only a `JSONResponse(status_code=...)` carries a
different status.
-/

/-- Round a rational to the nearest integer, ties to even: the idealised
behaviour of Python's built-in `round`. -/
def roundHalfEven (x : ℚ) : ℤ :=
  if x - ⌊x⌋ < 1/2 then ⌊x⌋
  else if 1/2 < x - ⌊x⌋ then ⌊x⌋ + 1
  else if ⌊x⌋ % 2 = 0 then ⌊x⌋ else ⌊x⌋ + 1

/-- Python's `round(x, 1)`: round to the nearest multiple of 1/10, ties to
even. -/
def round1 (x : ℚ) : ℚ := (roundHalfEven (x * 10) : ℚ) / 10

/-- Python's `round(x, 2)`: round to the nearest multiple of 1/100, ties to
even. -/
def round2 (x : ℚ) : ℚ := (roundHalfEven (x * 100) : ℚ) / 100

/-- Embeds `np.mean` on a one-dimensional array, as a list of rationals. -/
def np_mean (l : List ℚ) : ℚ := l.sum / l.length

/-- Embeds the square of `np.std` (population variance): the mean of the
squared deviations from the mean.  `np.std l` itself is the unique
non-negative square root of `np_variance l`; theorems quantify over a value
`std` constrained by `0 ≤ std` and `std ^ 2 = np_variance l`. -/
def np_variance (l : List ℚ) : ℚ := np_mean (l.map (fun x => (x - np_mean l) ^ 2))

/-- Embeds `rms_var = np.std(rms) / (np.mean(rms) + 1e-8)` (main.py line 29,
api/index.py line 40, app.py line 95), taking the values of `np.std(rms)` and
`np.mean(rms)` as arguments. -/
def rms_var_of (std m : ℚ) : ℚ := std / (m + 1 / 100000000)

/-- The four emotion entries of the `emotion_scores` dict. -/
structure EmotionScores where
  calm : ℚ
  tense : ℚ
  angry : ℚ
  excited : ℚ
deriving DecidableEq

/-- Embeds the raw (pre-normalisation) `emotion_scores` dict of
`analyze_audio_simple` (main.py lines 33-38, identical in api/index.py
lines 44-49). -/
def emotionScoresRaw (rms_var zcr_mean : ℚ) : EmotionScores where
  calm := max 0 (100 - rms_var * 50)
  tense := min 100 (rms_var * 40 + zcr_mean * 20)
  angry := min 100 (rms_var * 60)
  excited := min 100 ((rms_var + zcr_mean) * 30)

/-- Embeds the raw (pre-normalisation) `emotion_scores` dict of
`generate_emotion_analysis` (app.py lines 100-105).  `spectral_centroid_mean`
is the value of `np.mean(features['spectral_centroid'])`. -/
def emotionScoresRawApp (rms_var zcr_mean spectral_centroid_mean : ℚ) : EmotionScores where
  calm := max 0 (1 - rms_var * 2)
  tense := min 1 (rms_var * 1.5 + zcr_mean * 0.3)
  angry := min 1 (spectral_centroid_mean / 5000 + rms_var)
  excited := min 1 ((rms_var + zcr_mean) * 0.8)

/-- Embeds `total = sum(emotion_scores.values())` (main.py line 41,
app.py line 108). -/
def totalScore (s : EmotionScores) : ℚ := s.calm + s.tense + s.angry + s.excited

/-- Embeds the normalisation loop
`emotion_scores[key] = round(emotion_scores[key] / total * 100, 1)`
(main.py lines 41-43, api/index.py lines 52-54, app.py lines 107-110). -/
def normalizeScores (s : EmotionScores) : EmotionScores where
  calm := round1 (s.calm / totalScore s * 100)
  tense := round1 (s.tense / totalScore s * 100)
  angry := round1 (s.angry / totalScore s * 100)
  excited := round1 (s.excited / totalScore s * 100)

/-- The normalised emotion scores of the simple scorer, as returned in the
`emotions` field of `analyze_audio_simple`. -/
def emotionScores (rms_var zcr_mean : ℚ) : EmotionScores :=
  normalizeScores (emotionScoresRaw rms_var zcr_mean)

/-- The normalised emotion scores of the app.py scorer, as returned in the
`emotion_scores` field of `generate_emotion_analysis`. -/
def emotionScoresApp (rms_var zcr_mean spectral_centroid_mean : ℚ) : EmotionScores :=
  normalizeScores (emotionScoresRawApp rms_var zcr_mean spectral_centroid_mean)

/-- Sum of the four normalised emotion scores. -/
def sumScores (s : EmotionScores) : ℚ := s.calm + s.tense + s.angry + s.excited

/-- Embeds `conflict_risk = min(100, emotion_scores['tense'] * 0.4 +
emotion_scores['angry'] * 0.6)` (main.py line 46, api/index.py line 57). -/
def conflict_risk (s : EmotionScores) : ℚ := min 100 (s.tense * 0.4 + s.angry * 0.6)

/-- Embeds `conflict_risk = min(100, emotion_scores['tense'] * 0.6 +
emotion_scores['angry'] * 0.8 + emotion_scores['excited'] * 0.4)`
(app.py line 113). -/
def conflict_risk_app (s : EmotionScores) : ℚ :=
  min 100 (s.tense * 0.6 + s.angry * 0.8 + s.excited * 0.4)

/-- The result dict of `analyze_audio_simple` (main.py lines 48-54).  The
`timestamp` field is `datetime.now().strftime(...)`, passed in as the `now`
argument since it is the only non-deterministic input. -/
structure AnalysisResult where
  success : Bool
  emotions : EmotionScores
  risk : ℚ
  duration : ℚ
  timestamp : String
deriving DecidableEq

/-- Embeds the success path of `analyze_audio_simple` (main.py lines 28-54,
api/index.py lines 39-65) from the derived audio statistics. -/
def analyze_audio_simple (rms_var zcr_mean dur : ℚ) (now : String) : AnalysisResult where
  success := true
  emotions := emotionScores rms_var zcr_mean
  risk := round1 (conflict_risk (emotionScores rms_var zcr_mean))
  duration := round2 dur
  timestamp := now

/-- The result dict of `generate_emotion_analysis` (app.py lines 115-120). -/
structure EmotionResult where
  emotion_scores : EmotionScores
  conflict_risk : ℚ
  duration : ℚ
  timestamp : String
deriving DecidableEq

/-- Embeds `generate_emotion_analysis` (app.py lines 92-120) from the derived
audio statistics. -/
def generate_emotion_analysis (rms_var zcr_mean spectral_centroid_mean dur : ℚ)
    (now : String) : EmotionResult where
  emotion_scores := emotionScoresApp rms_var zcr_mean spectral_centroid_mean
  conflict_risk :=
    round1 (conflict_risk_app (emotionScoresApp rms_var zcr_mean spectral_centroid_mean))
  duration := round2 dur
  timestamp := now

/-- Modelled from the spec: §4.2 step 1, `rmsVariability = stddev(rmsSeries) /
(mean(rmsSeries) + ε)` with ε = 1e-8, for comparison with the code's
`rms_var_of`. -/
def spec_rmsVariability (std m : ℚ) : ℚ := std / (m + 1 / 100000000)

/-- Modelled from the spec: §4.2 step 4, `calm_raw = max(0, C1 -
rmsVariability * C2)` with C1 = 100, C2 = 50. -/
def spec_calm_raw (v : ℚ) : ℚ := max 0 (100 - v * 50)

/-- Modelled from the spec: §4.2 step 4, `tense_raw = min(C3, rmsVariability *
C4 + zcrMean * C5)` with C3 = 100, C4 = 40, C5 = 20. -/
def spec_tense_raw (v z : ℚ) : ℚ := min 100 (v * 40 + z * 20)

/-- Modelled from the spec: §4.2 step 4, `angry_raw = min(C3, rmsVariability *
C6)` with C3 = 100, C6 = 60 (no centroid term in the minimal variant). -/
def spec_angry_raw (v : ℚ) : ℚ := min 100 (v * 60)

/-- Modelled from the spec: §4.2 step 4, `excited_raw = min(C3,
(rmsVariability + zcrMean) * C7)` with C3 = 100, C7 = 30. -/
def spec_excited_raw (v z : ℚ) : ℚ := min 100 ((v + z) * 30)

/-- Clamp `x` into the closed interval from `lo` to `hi`. -/
def clamp (x lo hi : ℚ) : ℚ := min hi (max lo x)

/-- Modelled from the spec: §4.2 step 6, `risk = clamp(tense*W1 + angry*W2, 0,
100)` with W1 = 0.4, W2 = 0.6, no excited term, rounded to one decimal
place. -/
def spec_conflict_risk (tense angry : ℚ) : ℚ :=
  round1 (clamp (tense * 0.4 + angry * 0.6) 0 100)

/-- Embeds Python's `file.content_type.startswith('audio/')` check as a
character-level prefix test on the content-type string. -/
def contentTypeIsAudio (contentType : String) : Bool :=
  "audio/".data.isPrefixOf contentType.data

/-- Outcome of the validation stage of a `POST /analyze` handler: either an
early return of a structured failure body `{"success": succ, "error": msg}`
carried with the given HTTP status, or proceeding to run the audio
analysis. -/
inductive HandlerOutcome where
  | reject (status : Nat) (succ : Bool) (errorMsg : String)
  | proceed
deriving DecidableEq

/-- HTTP status of an early rejection, if any. -/
def rejectStatus : HandlerOutcome → Option Nat
  | HandlerOutcome.reject s _ _ => some s
  | HandlerOutcome.proceed => none

/-- Embeds the validation stage of main.py's `/analyze` handler (lines
256-259): a non-audio content type returns the bare dict
`{"success": False, "error": "请上传音频文件"}`, which FastAPI serves with its
default status 200. -/
def main_analyze_validate (contentType : String) : HandlerOutcome :=
  if contentTypeIsAudio contentType then HandlerOutcome.proceed
  else HandlerOutcome.reject 200 false "请上传音频文件"

/-- Embeds the validation stage of app.py's `/analyze` handler (lines
404-419): non-audio content type and empty payload each return a
`JSONResponse` with explicit status 400. -/
def app_analyze_validate (contentType : String) (bodySize : Nat) : HandlerOutcome :=
  if !(contentTypeIsAudio contentType) then HandlerOutcome.reject 400 false "请上传音频文件"
  else if bodySize = 0 then HandlerOutcome.reject 400 false "文件为空"
  else HandlerOutcome.proceed

/-- Embeds the validation stage of api/index.py's `/analyze` handler (lines
334-341): non-audio content type, then `file.size > 10 * 1024 * 1024`, each
returning a bare dict (FastAPI default status 200). -/
def api_analyze_validate (contentType : String) (bodySize : Nat) : HandlerOutcome :=
  if !(contentTypeIsAudio contentType) then HandlerOutcome.reject 200 false "请上传音频文件"
  else if 10 * 1024 * 1024 < bodySize then
    HandlerOutcome.reject 200 false "文件大小不能超过10MB"
  else HandlerOutcome.proceed

/-- Temporary-file lifecycle of main.py's `/analyze` handler (lines 262-281):
the `NamedTemporaryFile(delete=False)` scratch file is unlinked by
`os.unlink` on line 276 only if control reaches it.  `analyze_audio_simple`
catches its own exceptions (so decode and analysis failures return a dict and
reach the unlink), but `create_simple_chart` on line 272 runs before the
unlink and is unguarded: if the analysis succeeded and chart generation
raises, control jumps to the outer `except` and the unlink is skipped.
Returns whether the scratch file has been removed when the handler returns. -/
def main_tmp_removed (analysisSucceeded chartRaises : Bool) : Bool :=
  if analysisSucceeded && chartRaises then false else true

/-- Temporary-file lifecycle of api/index.py's `/analyze` handler (lines
344-366): same shape as main.py (its `os.unlink` is wrapped in
`try/except pass`, which only guards the unlink call itself; a raise in
`create_emotion_chart` still skips it). -/
def api_tmp_removed (analysisSucceeded chartRaises : Bool) : Bool :=
  if analysisSucceeded && chartRaises then false else true

/-- Temporary-file lifecycle of app.py's `analyze_audio` (lines 29-41): the
scratch file is unlinked right after the `AudioSegment` decode / `librosa.load`
calls succeed.  If decoding (`AudioSegment.from_file` / `audio.export`) or
loading (`librosa.load`) raises, control jumps to the `except` on line 66 and
the `os.unlink` is skipped.  Everything after the unlink either cannot raise or
catches internally, so those steps cannot leak the file. -/
def app_tmp_removed (decodeRaises loadRaises : Bool) : Bool :=
  if decodeRaises || loadRaises then false else true

/-- Concrete rms series used as a counterexample input: five non-negative
window energies with mean 5699999953/4700000000 and population variance 4
(hence np.std = 2 exactly), chosen so that
`rms_var = 2 / (mean + 1e-8) = 94/57`. -/
def rmsCE : List ℚ :=
  [999999953/4700000000, 999999953/4700000000, 999999953/4700000000,
    999999953/4700000000, 24499999953/4700000000]

/-- Concrete zcr series used as a counterexample input: a single window with
zero-crossing rate 278/285 ∈ [0,1]. -/
def zcrCE : List ℚ := [278/285]

/-! ### Helper lemmas about the idealised decimal rounding -/

theorem roundHalfEven_sub_abs_le (x : ℚ) : |(roundHalfEven x : ℚ) - x| ≤ 1/2 := by
  have h0 : (⌊x⌋ : ℚ) ≤ x := Int.floor_le x
  have h1 : x < ⌊x⌋ + 1 := Int.lt_floor_add_one x
  unfold roundHalfEven
  split_ifs with hlt hgt heven
  · rw [abs_le]; constructor <;> linarith
  · rw [abs_le]; push_cast; constructor <;> linarith
  · have heq : x - ⌊x⌋ = 1/2 := le_antisymm (le_of_not_lt hgt) (le_of_not_lt hlt)
    rw [abs_le]; constructor <;> linarith
  · have heq : x - ⌊x⌋ = 1/2 := le_antisymm (le_of_not_lt hgt) (le_of_not_lt hlt)
    rw [abs_le]; push_cast; constructor <;> linarith

theorem roundHalfEven_nonneg {x : ℚ} (h : 0 ≤ x) : 0 ≤ roundHalfEven x := by
  have h0 : 0 ≤ ⌊x⌋ := Int.floor_nonneg.mpr h
  unfold roundHalfEven
  split_ifs <;> omega

theorem roundHalfEven_le {x : ℚ} {n : ℤ} (h : x ≤ n) : roundHalfEven x ≤ n := by
  have h0 : ⌊x⌋ ≤ n := by
    have := Int.floor_mono h
    rwa [Int.floor_intCast] at this
  have hfl : (⌊x⌋ : ℚ) ≤ x := Int.floor_le x
  unfold roundHalfEven
  split_ifs with hlt hgt heven
  · exact h0
  · have hq : (⌊x⌋ : ℚ) < (n : ℚ) := by linarith
    have : ⌊x⌋ < n := by exact_mod_cast hq
    omega
  · exact h0
  · have hge : (1:ℚ)/2 ≤ x - ⌊x⌋ := le_of_not_lt hlt
    have hq : (⌊x⌋ : ℚ) < (n : ℚ) := by linarith
    have : ⌊x⌋ < n := by exact_mod_cast hq
    omega

theorem round1_sub_abs_le (x : ℚ) : |round1 x - x| ≤ 1/20 := by
  have h := roundHalfEven_sub_abs_le (x * 10)
  have e : round1 x - x = ((roundHalfEven (x * 10) : ℚ) - x * 10) / 10 := by
    unfold round1; ring
  rw [e, abs_div, abs_of_pos (by norm_num : (0:ℚ) < 10)]
  linarith

theorem round1_nonneg {x : ℚ} (h : 0 ≤ x) : 0 ≤ round1 x := by
  have h1 : 0 ≤ roundHalfEven (x * 10) := roundHalfEven_nonneg (by linarith)
  have h2 : (0:ℚ) ≤ (roundHalfEven (x * 10) : ℚ) := by exact_mod_cast h1
  unfold round1
  exact div_nonneg h2 (by norm_num)

theorem round1_le_hundred {x : ℚ} (h : x ≤ 100) : round1 x ≤ 100 := by
  have h1 : x * 10 ≤ ((1000 : ℤ) : ℚ) := by push_cast; linarith
  have h2 := roundHalfEven_le h1
  have h3 : ((roundHalfEven (x * 10) : ℤ) : ℚ) ≤ 1000 := by exact_mod_cast h2
  unfold round1
  linarith

/-! ### Helper lemmas about the derived statistics -/

theorem np_mean_nonneg {l : List ℚ} (h : ∀ x ∈ l, 0 ≤ x) : 0 ≤ np_mean l := by
  unfold np_mean
  exact div_nonneg (List.sum_nonneg h) (Nat.cast_nonneg _)

theorem np_mean_le_one {l : List ℚ} (hne : l ≠ []) (h : ∀ x ∈ l, x ≤ 1) :
    np_mean l ≤ 1 := by
  unfold np_mean
  have hlen : 0 < (l.length : ℚ) := by
    have := List.length_pos.mpr hne
    exact_mod_cast this
  rw [div_le_one hlen]
  have := List.sum_le_card_nsmul l 1 h
  simpa using this

theorem rms_var_of_nonneg {std m : ℚ} (hs : 0 ≤ std) (hm : 0 ≤ m) :
    0 ≤ rms_var_of std m := by
  have hd : (0:ℚ) < m + 1 / 100000000 := by linarith
  unfold rms_var_of
  exact div_nonneg hs hd.le

/-! ### Helper lemmas about the scorers -/

theorem emotionScoresRaw_nonneg (v z : ℚ) (hv : 0 ≤ v) (hz : 0 ≤ z) :
    0 ≤ (emotionScoresRaw v z).calm ∧ 0 ≤ (emotionScoresRaw v z).tense ∧
      0 ≤ (emotionScoresRaw v z).angry ∧ 0 ≤ (emotionScoresRaw v z).excited := by
  simp only [emotionScoresRaw]
  exact ⟨le_max_left 0 _, le_min (by norm_num) (by linarith),
    le_min (by norm_num) (by linarith), le_min (by norm_num) (by linarith)⟩

theorem totalScore_raw_pos (v z : ℚ) (hv : 0 ≤ v) (hz : 0 ≤ z) :
    0 < totalScore (emotionScoresRaw v z) := by
  simp only [totalScore, emotionScoresRaw]
  have h3 : 0 ≤ min 100 (v * 60) := le_min (by norm_num) (by linarith)
  have h4 : 0 ≤ min 100 ((v + z) * 30) := le_min (by norm_num) (by linarith)
  rcases lt_or_le v 2 with h | h
  · have h1 : 0 < max 0 (100 - v * 50) := lt_max_iff.mpr (Or.inr (by linarith))
    have h2 : 0 ≤ min 100 (v * 40 + z * 20) := le_min (by norm_num) (by linarith)
    linarith
  · have h1 : 0 ≤ max 0 (100 - v * 50) := le_max_left 0 _
    have h2 : (80:ℚ) ≤ min 100 (v * 40 + z * 20) := le_min (by norm_num) (by linarith)
    linarith

theorem emotionScoresRawApp_nonneg (v z c : ℚ) (hv : 0 ≤ v) (hz : 0 ≤ z) (hc : 0 ≤ c) :
    0 ≤ (emotionScoresRawApp v z c).calm ∧ 0 ≤ (emotionScoresRawApp v z c).tense ∧
      0 ≤ (emotionScoresRawApp v z c).angry ∧ 0 ≤ (emotionScoresRawApp v z c).excited := by
  have hdiv : 0 ≤ c / 5000 := div_nonneg hc (by norm_num)
  simp only [emotionScoresRawApp]
  exact ⟨le_max_left 0 _, le_min (by norm_num) (by linarith),
    le_min (by norm_num) (by linarith), le_min (by norm_num) (by linarith)⟩

theorem totalScore_rawApp_pos (v z c : ℚ) (hv : 0 ≤ v) (hz : 0 ≤ z) (hc : 0 ≤ c) :
    0 < totalScore (emotionScoresRawApp v z c) := by
  have hdiv : 0 ≤ c / 5000 := div_nonneg hc (by norm_num)
  simp only [totalScore, emotionScoresRawApp]
  have h3 : 0 ≤ min 1 (c / 5000 + v) := le_min (by norm_num) (by linarith)
  have h4 : 0 ≤ min 1 ((v + z) * 0.8) := le_min (by norm_num) (by linarith)
  rcases lt_or_le v (1/2) with h | h
  · have h1 : 0 < max 0 (1 - v * 2) := lt_max_iff.mpr (Or.inr (by linarith))
    have h2 : 0 ≤ min 1 (v * 1.5 + z * 0.3) := le_min (by norm_num) (by linarith)
    linarith
  · have h1 : 0 ≤ max 0 (1 - v * 2) := le_max_left 0 _
    have h2 : (3/4:ℚ) ≤ min 1 (v * 1.5 + z * 0.3) := le_min (by norm_num) (by linarith)
    linarith

theorem normalized_pre_sum (s : EmotionScores) (h : totalScore s ≠ 0) :
    s.calm / totalScore s * 100 + s.tense / totalScore s * 100 +
      s.angry / totalScore s * 100 + s.excited / totalScore s * 100 = 100 := by
  have e : s.calm + s.tense + s.angry + s.excited = totalScore s := rfl
  field_simp
  linarith

theorem normalizeScores_bounds (s : EmotionScores)
    (hc : 0 ≤ s.calm) (ht : 0 ≤ s.tense) (ha : 0 ≤ s.angry) (he : 0 ≤ s.excited)
    (hT : 0 < totalScore s) :
    (0 ≤ (normalizeScores s).calm ∧ 0 ≤ (normalizeScores s).tense ∧
      0 ≤ (normalizeScores s).angry ∧ 0 ≤ (normalizeScores s).excited) ∧
      |sumScores (normalizeScores s) - 100| ≤ 1/5 := by
  have hp1 : 0 ≤ s.calm / totalScore s * 100 :=
    mul_nonneg (div_nonneg hc hT.le) (by norm_num)
  have hp2 : 0 ≤ s.tense / totalScore s * 100 :=
    mul_nonneg (div_nonneg ht hT.le) (by norm_num)
  have hp3 : 0 ≤ s.angry / totalScore s * 100 :=
    mul_nonneg (div_nonneg ha hT.le) (by norm_num)
  have hp4 : 0 ≤ s.excited / totalScore s * 100 :=
    mul_nonneg (div_nonneg he hT.le) (by norm_num)
  have hsum := normalized_pre_sum s (ne_of_gt hT)
  have e1 := round1_sub_abs_le (s.calm / totalScore s * 100)
  have e2 := round1_sub_abs_le (s.tense / totalScore s * 100)
  have e3 := round1_sub_abs_le (s.angry / totalScore s * 100)
  have e4 := round1_sub_abs_le (s.excited / totalScore s * 100)
  rw [abs_le] at e1 e2 e3 e4
  obtain ⟨e1l, e1r⟩ := e1
  obtain ⟨e2l, e2r⟩ := e2
  obtain ⟨e3l, e3r⟩ := e3
  obtain ⟨e4l, e4r⟩ := e4
  refine ⟨⟨round1_nonneg hp1, round1_nonneg hp2, round1_nonneg hp3, round1_nonneg hp4⟩, ?_⟩
  simp only [sumScores, normalizeScores]
  rw [abs_le]
  constructor <;> linarith

theorem emotionScores_bounds (v z : ℚ) (hv : 0 ≤ v) (hz : 0 ≤ z) :
    (0 ≤ (emotionScores v z).calm ∧ 0 ≤ (emotionScores v z).tense ∧
      0 ≤ (emotionScores v z).angry ∧ 0 ≤ (emotionScores v z).excited) ∧
      |sumScores (emotionScores v z) - 100| ≤ 1/5 := by
  obtain ⟨h1, h2, h3, h4⟩ := emotionScoresRaw_nonneg v z hv hz
  exact normalizeScores_bounds _ h1 h2 h3 h4 (totalScore_raw_pos v z hv hz)

theorem emotionScoresApp_bounds (v z c : ℚ) (hv : 0 ≤ v) (hz : 0 ≤ z) (hc : 0 ≤ c) :
    (0 ≤ (emotionScoresApp v z c).calm ∧ 0 ≤ (emotionScoresApp v z c).tense ∧
      0 ≤ (emotionScoresApp v z c).angry ∧ 0 ≤ (emotionScoresApp v z c).excited) ∧
      |sumScores (emotionScoresApp v z c) - 100| ≤ 1/5 := by
  obtain ⟨h1, h2, h3, h4⟩ := emotionScoresRawApp_nonneg v z c hv hz hc
  exact normalizeScores_bounds _ h1 h2 h3 h4 (totalScore_rawApp_pos v z c hv hz hc)

/-! ### Claim theorems -/

/-- C1 (counterexample): the claimed tolerance of 0.1 on the score sum fails.
With the concrete valid AudioStatistics `rmsCE` (five non-negative energies,
np.std = 2 since the variance is exactly 4) and `zcrCE` (one zcr value
278/285 ∈ [0,1]), the simple scorer computes rms_var = 94/57 and pre-rounding
scores 6.25, 30.45, 35.25, 28.05; each is an exact tie that rounds down to
the even tenth, so the returned scores 6.2, 30.4, 35.2, 28.0 sum to 99.8,
which misses 100.0 by 0.2 > 0.1. -/
theorem claim_C1_counterexample :
    0 ≤ (999999953/4700000000 : ℚ) ∧ 0 ≤ (24499999953/4700000000 : ℚ) ∧
      (0 ≤ (278/285 : ℚ) ∧ (278/285 : ℚ) ≤ 1) ∧ 0 ≤ (2 : ℚ) ∧
      (2 : ℚ) ^ 2 = np_variance rmsCE ∧
      rms_var_of 2 (np_mean rmsCE) = 94/57 ∧ np_mean zcrCE = 278/285 ∧
      emotionScores (94/57) (278/285) = ⟨62/10, 304/10, 352/10, 28⟩ ∧
      sumScores (emotionScores (rms_var_of 2 (np_mean rmsCE)) (np_mean zcrCE)) = 998/10 ∧
      ¬ |sumScores (emotionScores (rms_var_of 2 (np_mean rmsCE)) (np_mean zcrCE)) - 100|
          ≤ 1/10 := by
  have hmean : np_mean rmsCE = 5699999953/4700000000 := by
    unfold np_mean rmsCE; norm_num
  have hvar : np_variance rmsCE = 4 := by
    unfold np_variance np_mean rmsCE; norm_num
  have hv : rms_var_of 2 (np_mean rmsCE) = 94/57 := by
    rw [hmean]; unfold rms_var_of; norm_num
  have hz : np_mean zcrCE = 278/285 := by
    unfold np_mean zcrCE; norm_num
  have hscores : emotionScores (94/57) (278/285) = ⟨62/10, 304/10, 352/10, 28⟩ := by
    unfold emotionScores normalizeScores emotionScoresRaw totalScore round1 roundHalfEven
    norm_num
  have hsum : sumScores (emotionScores (rms_var_of 2 (np_mean rmsCE)) (np_mean zcrCE))
      = 998/10 := by
    rw [hv, hz, hscores]; unfold sumScores; norm_num
  refine ⟨by norm_num, by norm_num, ⟨by norm_num, by norm_num⟩, by norm_num,
    by rw [hvar]; norm_num, hv, hz, hscores, hsum, ?_⟩
  rw [hsum]
  intro hcontra
  rw [abs_le] at hcontra
  have := hcontra.1
  linarith

/-- C1 (amended): for every valid AudioStatistics input (non-empty rms series
of non-negative values with np.std the non-negative square root of the
variance, non-empty zcr series with values in [0,1]), the four emotion scores
returned by the simple scorer are each non-negative and their sum equals
100.0 within a tolerance of 0.2 (each of the four roundings to one decimal
place moves a score by at most 0.05). -/
theorem claim_C1_amended (rms zcr : List ℚ) (std : ℚ)
    (_hrne : rms ≠ []) (_hzne : zcr ≠ [])
    (hrms : ∀ x ∈ rms, 0 ≤ x) (hzcr : ∀ x ∈ zcr, 0 ≤ x ∧ x ≤ 1)
    (hstd : 0 ≤ std) (_hvar : std ^ 2 = np_variance rms) :
    (0 ≤ (emotionScores (rms_var_of std (np_mean rms)) (np_mean zcr)).calm ∧
      0 ≤ (emotionScores (rms_var_of std (np_mean rms)) (np_mean zcr)).tense ∧
      0 ≤ (emotionScores (rms_var_of std (np_mean rms)) (np_mean zcr)).angry ∧
      0 ≤ (emotionScores (rms_var_of std (np_mean rms)) (np_mean zcr)).excited) ∧
      |sumScores (emotionScores (rms_var_of std (np_mean rms)) (np_mean zcr)) - 100|
        ≤ 1/5 := by
  have hv : 0 ≤ rms_var_of std (np_mean rms) :=
    rms_var_of_nonneg hstd (np_mean_nonneg hrms)
  have hz : 0 ≤ np_mean zcr := np_mean_nonneg (fun x hx => (hzcr x hx).1)
  exact emotionScores_bounds _ _ hv hz

/-- Witness for C1 (amended) at the concrete valid input rms = [1, 1]
(np.std = 0), zcr = [0]. -/
theorem claim_C1_amended_witness :
    ([1, 1] : List ℚ) ≠ [] ∧
      ((0 ≤ (emotionScores (rms_var_of 0 (np_mean [1, 1])) (np_mean [0])).calm ∧
        0 ≤ (emotionScores (rms_var_of 0 (np_mean [1, 1])) (np_mean [0])).tense ∧
        0 ≤ (emotionScores (rms_var_of 0 (np_mean [1, 1])) (np_mean [0])).angry ∧
        0 ≤ (emotionScores (rms_var_of 0 (np_mean [1, 1])) (np_mean [0])).excited) ∧
        |sumScores (emotionScores (rms_var_of 0 (np_mean [1, 1])) (np_mean [0])) - 100|
          ≤ 1/5) :=
  ⟨by simp,
    claim_C1_amended [1, 1] [0] 0 (by simp) (by simp)
      (by intro x hx; simp at hx; simp [hx])
      (by intro x hx; simp at hx; simp [hx])
      le_rfl (by unfold np_variance np_mean; norm_num)⟩

/-- C2: for every valid AudioStatistics input, the conflict risk returned by
both scorers lies in the closed interval [0, 100]: the inner weighted sum of
normalised (hence non-negative) scores is non-negative, `min 100` caps it at
100, and rounding to one decimal preserves both bounds. -/
theorem claim_C2 (v z c d : ℚ) (ts : String) (hv : 0 ≤ v) (hz : 0 ≤ z) (hc : 0 ≤ c) :
    (0 ≤ (analyze_audio_simple v z d ts).risk ∧
      (analyze_audio_simple v z d ts).risk ≤ 100) ∧
      (0 ≤ (generate_emotion_analysis v z c d ts).conflict_risk ∧
        (generate_emotion_analysis v z c d ts).conflict_risk ≤ 100) := by
  obtain ⟨-, h2, h3, -⟩ := (emotionScores_bounds v z hv hz).1
  obtain ⟨-, g2, g3, g4⟩ := (emotionScoresApp_bounds v z c hv hz hc).1
  refine ⟨⟨?_, ?_⟩, ?_, ?_⟩
  · show 0 ≤ round1 (conflict_risk (emotionScores v z))
    apply round1_nonneg
    exact le_min (by norm_num) (by linarith)
  · show round1 (conflict_risk (emotionScores v z)) ≤ 100
    exact round1_le_hundred (min_le_left _ _)
  · show 0 ≤ round1 (conflict_risk_app (emotionScoresApp v z c))
    apply round1_nonneg
    exact le_min (by norm_num) (by linarith)
  · show round1 (conflict_risk_app (emotionScoresApp v z c)) ≤ 100
    exact round1_le_hundred (min_le_left _ _)

/-- Witness for C2 at the concrete input v = z = c = 0. -/
theorem claim_C2_witness :
    0 ≤ (0 : ℚ) ∧
      ((0 ≤ (analyze_audio_simple 0 0 0 "t").risk ∧
        (analyze_audio_simple 0 0 0 "t").risk ≤ 100) ∧
        (0 ≤ (generate_emotion_analysis 0 0 0 0 "t").conflict_risk ∧
          (generate_emotion_analysis 0 0 0 0 "t").conflict_risk ≤ 100)) :=
  ⟨le_rfl, claim_C2 0 0 0 0 "t" le_rfl le_rfl le_rfl⟩

/-- C3: the degenerate input rms_var = 0, zcr_mean = 0 (and spectral centroid
0 for the app.py variant, as produced by a constant/silent signal) yields the
fallback distribution calm = 100, tense = angry = excited = 0 in both
scorers, and the normalisation divisor is non-zero (100 for the simple
scorer, 1 for the app.py scorer), so no division-by-zero fault arises. -/
theorem claim_C3 :
    emotionScores 0 0 = ⟨100, 0, 0, 0⟩ ∧
      totalScore (emotionScoresRaw 0 0) ≠ 0 ∧
      emotionScoresApp 0 0 0 = ⟨100, 0, 0, 0⟩ ∧
      totalScore (emotionScoresRawApp 0 0 0) ≠ 0 := by
  refine ⟨?_, ?_, ?_, ?_⟩
  · unfold emotionScores normalizeScores emotionScoresRaw totalScore round1 roundHalfEven
    norm_num
  · unfold totalScore emotionScoresRaw
    norm_num
  · unfold emotionScoresApp normalizeScores emotionScoresRawApp totalScore round1 roundHalfEven
    norm_num
  · unfold totalScore emotionScoresRawApp
    norm_num

/-- C4: the simple scorer computes rmsVariability = std / (mean + 1e-8) and
the four raw weights exactly as the fixed linear combinations of spec §4.2
steps 1-4 with constants C1 = 100, C2 = 50, C3 = 100, C4 = 40, C5 = 20,
C6 = 60, C7 = 30: the code-side definitions coincide with the spec-side ones
definitionally. -/
theorem claim_C4 (std m v z : ℚ) :
    rms_var_of std m = spec_rmsVariability std m ∧
      (emotionScoresRaw v z).calm = spec_calm_raw v ∧
      (emotionScoresRaw v z).tense = spec_tense_raw v z ∧
      (emotionScoresRaw v z).angry = spec_angry_raw v ∧
      (emotionScoresRaw v z).excited = spec_excited_raw v z :=
  ⟨rfl, rfl, rfl, rfl, rfl⟩

/-- C5 (counterexample): the claim fails for the app.py scorer, which does
use an excited term and weights 0.6/0.8 rather than 0.4/0.6.  At the
normalised score vector (calm, tense, angry, excited) = (0, 50, 25, 25) the
app.py derivation gives min(100, 50*0.6 + 25*0.8 + 25*0.4) = 60.0, while the
claimed formula clamp(tense*0.4 + angry*0.6, 0, 100) gives 35.0. -/
theorem claim_C5_counterexample :
    round1 (conflict_risk_app ⟨0, 50, 25, 25⟩) = 60 ∧
      spec_conflict_risk 50 25 = 35 ∧ (60 : ℚ) ≠ 35 := by
  refine ⟨?_, ?_, by norm_num⟩
  · unfold conflict_risk_app round1 roundHalfEven
    norm_num
  · unfold spec_conflict_risk clamp round1 roundHalfEven
    norm_num

/-- C5 (amended): for every normalised emotion score vector, the simple
scorer (main.py and api/index.py) derives the conflict risk as
clamp(tense*0.4 + angry*0.6, 0, 100) rounded to one decimal place, with no
excited term; the app.py scorer instead derives
min(100, tense*0.6 + angry*0.8 + excited*0.4) rounded to one decimal
place. -/
theorem claim_C5_amended (v z c d : ℚ) (ts : String) (hv : 0 ≤ v) (hz : 0 ≤ z) :
    (analyze_audio_simple v z d ts).risk =
      spec_conflict_risk (emotionScores v z).tense (emotionScores v z).angry ∧
      (generate_emotion_analysis v z c d ts).conflict_risk =
        round1 (min 100 ((emotionScoresApp v z c).tense * 0.6 +
          (emotionScoresApp v z c).angry * 0.8 + (emotionScoresApp v z c).excited * 0.4)) := by
  obtain ⟨-, h2, h3, -⟩ := (emotionScores_bounds v z hv hz).1
  refine ⟨?_, rfl⟩
  show round1 (conflict_risk (emotionScores v z)) = _
  unfold conflict_risk spec_conflict_risk clamp
  rw [max_eq_right (by linarith :
    (0:ℚ) ≤ (emotionScores v z).tense * 0.4 + (emotionScores v z).angry * 0.6)]

/-- Witness for C5 (amended) at the concrete input v = z = c = 0. -/
theorem claim_C5_amended_witness :
    0 ≤ (0 : ℚ) ∧
      ((analyze_audio_simple 0 0 0 "t").risk =
        spec_conflict_risk (emotionScores 0 0).tense (emotionScores 0 0).angry ∧
        (generate_emotion_analysis 0 0 0 0 "t").conflict_risk =
          round1 (min 100 ((emotionScoresApp 0 0 0).tense * 0.6 +
            (emotionScoresApp 0 0 0).angry * 0.8 + (emotionScoresApp 0 0 0).excited * 0.4))) :=
  ⟨le_rfl, claim_C5_amended 0 0 0 0 "t" le_rfl le_rfl⟩

/-- C6: both scorers are deterministic functions of the audio statistics
alone; the wall-clock capture time only enters the timestamp field, so two
invocations on identical statistics agree on every other field (emotion
scores, conflict risk, duration, success flag). -/
theorem claim_C6 (v z c d : ℚ) (ts1 ts2 : String) :
    ((analyze_audio_simple v z d ts1).success = (analyze_audio_simple v z d ts2).success ∧
      (analyze_audio_simple v z d ts1).emotions = (analyze_audio_simple v z d ts2).emotions ∧
      (analyze_audio_simple v z d ts1).risk = (analyze_audio_simple v z d ts2).risk ∧
      (analyze_audio_simple v z d ts1).duration = (analyze_audio_simple v z d ts2).duration) ∧
      ((generate_emotion_analysis v z c d ts1).emotion_scores =
        (generate_emotion_analysis v z c d ts2).emotion_scores ∧
        (generate_emotion_analysis v z c d ts1).conflict_risk =
          (generate_emotion_analysis v z c d ts2).conflict_risk ∧
        (generate_emotion_analysis v z c d ts1).duration =
          (generate_emotion_analysis v z c d ts2).duration) :=
  ⟨⟨rfl, rfl, rfl, rfl⟩, rfl, rfl, rfl⟩

/-- C7 (counterexample): for a non-audio content type, main.py's `/analyze`
handler returns the structured failure body as a bare dict, which is served
with the FastAPI default status 200, not the claimed 400. -/
theorem claim_C7_counterexample :
    main_analyze_validate "text/plain" =
        HandlerOutcome.reject 200 false "请上传音频文件" ∧
      rejectStatus (main_analyze_validate "text/plain") ≠ some 400 := by
  constructor
  · rfl
  · decide

/-- C7 (amended): for every POST /analyze request whose file content type
does not start with "audio/", each handler returns the structured failure
body {success: false, error: message}; app.py serves it with HTTP status 400,
while main.py and api/index.py return a bare dict served with the FastAPI
default status 200. -/
theorem claim_C7_amended (ct : String) (n : Nat) (h : contentTypeIsAudio ct = false) :
    app_analyze_validate ct n = HandlerOutcome.reject 400 false "请上传音频文件" ∧
      main_analyze_validate ct = HandlerOutcome.reject 200 false "请上传音频文件" ∧
      api_analyze_validate ct n = HandlerOutcome.reject 200 false "请上传音频文件" := by
  refine ⟨?_, ?_, ?_⟩ <;>
    simp [app_analyze_validate, main_analyze_validate, api_analyze_validate, h]

/-- Witness for C7 (amended) at the concrete request content type
"text/plain" with a 3-byte payload. -/
theorem claim_C7_amended_witness :
    contentTypeIsAudio "text/plain" = false ∧
      (app_analyze_validate "text/plain" 3 =
          HandlerOutcome.reject 400 false "请上传音频文件" ∧
        main_analyze_validate "text/plain" =
          HandlerOutcome.reject 200 false "请上传音频文件" ∧
        api_analyze_validate "text/plain" 3 =
          HandlerOutcome.reject 200 false "请上传音频文件") :=
  ⟨by decide, claim_C7_amended "text/plain" 3 (by decide)⟩

/-- C8 (counterexample): api/index.py's `/analyze` handler rejects an
oversized audio payload (10 MB + 1 byte) with the structured failure body,
but as a bare dict served with the FastAPI default status 200, not the
claimed 400. -/
theorem claim_C8_counterexample :
    api_analyze_validate "audio/wav" (10 * 1024 * 1024 + 1) =
        HandlerOutcome.reject 200 false "文件大小不能超过10MB" ∧
      rejectStatus (api_analyze_validate "audio/wav" (10 * 1024 * 1024 + 1)) ≠
        some 400 := by
  constructor
  · rfl
  · decide

/-- C8 (amended): for every POST /analyze request with audio content type
whose payload exceeds the 10 MB ceiling, api/index.py's handler rejects it
with the structured failure body {success: false, error: ...} without
proceeding to the analysis, served with the FastAPI default status 200 (the
size check returns a bare dict, not a JSONResponse with status 400). -/
theorem claim_C8_amended (ct : String) (n : Nat) (hct : contentTypeIsAudio ct = true)
    (hn : 10 * 1024 * 1024 < n) :
    api_analyze_validate ct n = HandlerOutcome.reject 200 false "文件大小不能超过10MB" ∧
      api_analyze_validate ct n ≠ HandlerOutcome.proceed := by
  have h1 : api_analyze_validate ct n =
      HandlerOutcome.reject 200 false "文件大小不能超过10MB" := by
    simp [api_analyze_validate, hct, hn]
  refine ⟨h1, ?_⟩
  rw [h1]
  simp

/-- Witness for C8 (amended) at the concrete request content type
"audio/wav" with a payload of 10 MB + 1 byte. -/
theorem claim_C8_amended_witness :
    contentTypeIsAudio "audio/wav" = true ∧ 10 * 1024 * 1024 < 10485761 ∧
      (api_analyze_validate "audio/wav" 10485761 =
          HandlerOutcome.reject 200 false "文件大小不能超过10MB" ∧
        api_analyze_validate "audio/wav" 10485761 ≠ HandlerOutcome.proceed) :=
  ⟨by decide, by decide, claim_C8_amended "audio/wav" 10485761 (by decide) (by decide)⟩

/-- C9: the temporary decode file is NOT removed on every failure path, even
though it is removed on the success path.  In app.py a decode failure
(`AudioSegment.from_file` raising) or a load failure (`librosa.load` raising)
skips the `os.unlink`; in main.py (and api/index.py) a chart-generation
failure after a successful analysis skips the `os.unlink`.  The success paths
and the analysis-failure path of main.py do remove the file. -/
theorem claim_C9 :
    app_tmp_removed true false = false ∧ app_tmp_removed false true = false ∧
      main_tmp_removed true true = false ∧ api_tmp_removed true true = false ∧
      app_tmp_removed false false = true ∧ main_tmp_removed false false = true ∧
      main_tmp_removed true false = true ∧ main_tmp_removed false true = true := by
  decide

/-- C10: for every non-negative rms_var and zcr_mean, the normalisation
divisor total is strictly positive: when rms_var < 2 the calm term is
positive, and when rms_var ≥ 2 the tense term is positive (at least 80), so
the unguarded division in the normalisation step never divides by zero. -/
theorem claim_C10 (v z : ℚ) (hv : 0 ≤ v) (hz : 0 ≤ z) :
    (v < 2 → 0 < (emotionScoresRaw v z).calm) ∧
      (2 ≤ v → 0 < (emotionScoresRaw v z).tense) ∧
      0 < totalScore (emotionScoresRaw v z) := by
  refine ⟨?_, ?_, totalScore_raw_pos v z hv hz⟩
  · intro h
    simp only [emotionScoresRaw]
    exact lt_max_iff.mpr (Or.inr (by linarith))
  · intro h
    simp only [emotionScoresRaw]
    exact lt_min (by norm_num) (by linarith)

/-- Witness for C10 at the concrete input v = 0, z = 0. -/
theorem claim_C10_witness :
    0 ≤ (0 : ℚ) ∧
      (((0:ℚ) < 2 → 0 < (emotionScoresRaw 0 0).calm) ∧
        ((2:ℚ) ≤ 0 → 0 < (emotionScoresRaw 0 0).tense) ∧
        0 < totalScore (emotionScoresRaw 0 0)) :=
  ⟨le_rfl, claim_C10 0 0 le_rfl le_rfl⟩
